import Mathlib

/-!
Verification of the aggregation and scheduling engine of the weather
processor repository.

The embedding models:
* `WeatherRecord`, `DailyRecord`, `MonthlyRecord`, `WeatherStation`
  (src/processor/schema/) — numeric columns that may be absent (pandas NaN)
  are `Option ℚ`; the quality flag is `Option Bool`.
* `DailyBuilder` (src/processor/builders/daily_builder.py) — per-column
  reductions over the list of rows of the day, in row order.
* `MonthlyBuilder` (src/processor/builders/monthly_builder.py).
* `Scheduler` (src/processor/scheduler.py) and the inline month window of
  `Processor.fill_up_queue_with_pending` (src/processor/processor.py) —
  UTC instants are modelled as integer seconds since the Unix epoch via a
  civil-calendar conversion.
* `Database.save_daily_record` (src/processor/database.py) — the store is a
  list of rows; the SQL upsert with the manual-edit guard becomes a pure
  state transformer.
* the control flow of `Processor.run` (src/processor/processor.py) — as the
  trace of persistence effects it emits.

Real-number trigonometry (the circular wind-direction mean) is modelled
over `ℝ`; every other definition is executable.
-/

/-- One raw observation row (src/processor/schema/weather_record.py).
Absent numeric cells (NaN in the pandas frame) are `none`. -/
structure WeatherRecord where
  id : Option String
  station_id : String
  source_timestamp : Int
  temperature : Option ℚ
  wind_speed : Option ℚ
  max_wind_speed : Option ℚ
  wind_direction : Option ℚ
  rain : Option ℚ
  humidity : Option ℚ
  pressure : Option ℚ
  flagged : Option Bool
  taken_timestamp : Int
  gatherer_thread_id : String
  cumulative_rain : Option ℚ
  max_temperature : Option ℚ
  min_temperature : Option ℚ
  wind_gust : Option ℚ
  max_wind_gust : Option ℚ
  deriving DecidableEq

/-- Weather station reference data (src/processor/schema/weather_station.py). -/
structure WeatherStation where
  id : String
  location : String
  local_timezone : String
  deriving DecidableEq

/-- Daily summary row (src/processor/schema/daily_record.py). -/
structure DailyRecord where
  id : Option String
  station_id : String
  date : Nat
  max_temperature : Option ℚ
  min_temperature : Option ℚ
  max_wind_gust : Option ℚ
  max_wind_speed : Option ℚ
  avg_wind_direction : Option ℤ
  max_pressure : Option ℚ
  min_pressure : Option ℚ
  rain : Option ℚ
  flagged : Bool
  finished : Bool
  processor_thread_id : String
  avg_temperature : Option ℚ
  max_humidity : Option ℚ
  avg_humidity : Option ℚ
  min_humidity : Option ℚ
  timezone : String
  monthly_record_id : Option String
  meta_construction_data : List String
  deriving DecidableEq

/-- Monthly summary row (src/processor/schema/monthly_record.py). -/
structure MonthlyRecord where
  id : Option String
  station_id : String
  date : Int
  avg_max_temperature : Option ℚ
  avg_min_temperature : Option ℚ
  avg_avg_temperature : Option ℚ
  avg_humidity : Option ℚ
  avg_max_wind_gust : Option ℚ
  avg_pressure : Option ℚ
  max_max_temperature : Option ℚ
  min_min_temperature : Option ℚ
  max_max_humidity : Option ℚ
  min_min_humidity : Option ℚ
  max_max_pressure : Option ℚ
  max_max_wind_gust : Option ℚ
  min_min_pressure : Option ℚ
  cumulative_rainfall : Option ℚ
  processor_thread_id : String
  finished : Bool
  deriving DecidableEq

/-- Reduction of a pandas column: `df[col].max()` over the present values.
`none` models the NaN a pandas max yields on an all-NaN column. -/
def colMax : List ℚ → Option ℚ
  | [] => none
  | x :: xs => some (xs.foldl max x)

/-- Reduction of a pandas column: `df[col].min()` over the present values. -/
def colMin : List ℚ → Option ℚ
  | [] => none
  | x :: xs => some (xs.foldl min x)

/-- Reduction of a pandas column: `df[col].mean()` over the present values
(the caller guards the empty case). -/
def colMean (l : List ℚ) : ℚ := l.sum / l.length

theorem foldl_max_le_iff (xs : List ℚ) (a c : ℚ) :
    xs.foldl max a ≤ c ↔ a ≤ c ∧ ∀ y ∈ xs, y ≤ c := by
  induction xs generalizing a with
  | nil => simp
  | cons x xs ih =>
    simp only [List.foldl_cons, ih, max_le_iff, List.mem_cons]
    constructor
    · rintro ⟨⟨h1, h2⟩, h3⟩
      exact ⟨h1, fun y hy => hy.elim (fun e => e ▸ h2) (h3 y)⟩
    · rintro ⟨h1, h2⟩
      exact ⟨⟨h1, h2 x (Or.inl rfl)⟩, fun y hy => h2 y (Or.inr hy)⟩

theorem foldl_max_mem (xs : List ℚ) (a : ℚ) :
    xs.foldl max a = a ∨ xs.foldl max a ∈ xs := by
  induction xs generalizing a with
  | nil => simp
  | cons x xs ih =>
    simp only [List.foldl_cons, List.mem_cons]
    rcases ih (max a x) with h | h
    · rcases max_cases a x with ⟨he, _⟩ | ⟨he, _⟩
      · exact Or.inl (h.trans he)
      · exact Or.inr (Or.inl (h.trans he))
    · exact Or.inr (Or.inr h)

/-- Characterization of `colMax`: it returns exactly the greatest present
value, and `none` exactly on the empty column. -/
theorem colMax_eq_some_iff (l : List ℚ) (m : ℚ) :
    colMax l = some m ↔ m ∈ l ∧ ∀ y ∈ l, y ≤ m := by
  cases l with
  | nil => simp [colMax]
  | cons x xs =>
    simp only [colMax, Option.some_inj]
    constructor
    · rintro rfl
      have hle := (foldl_max_le_iff xs x (xs.foldl max x)).mp le_rfl
      refine ⟨?_, ?_⟩
      · rcases foldl_max_mem xs x with h | h
        · rw [h]; exact List.mem_cons_self x xs
        · exact List.mem_cons_of_mem x h
      · intro y hy
        rcases List.mem_cons.mp hy with rfl | hy
        · exact hle.1
        · have := (foldl_max_le_iff xs x (xs.foldl max x)).mp le_rfl
          exact this.2 y hy
    · rintro ⟨hmem, hub⟩
      have h1 : xs.foldl max x ≤ m := by
        refine (foldl_max_le_iff xs x m).mpr ⟨hub x (List.mem_cons_self x xs), ?_⟩
        exact fun y hy => hub y (List.mem_cons_of_mem x hy)
      have h2 : m ≤ xs.foldl max x := by
        rcases List.mem_cons.mp hmem with rfl | hm
        · exact ((foldl_max_le_iff xs m (xs.foldl max m)).mp le_rfl).1
        · exact ((foldl_max_le_iff xs x (xs.foldl max x)).mp le_rfl).2 m hm
      exact le_antisymm h1 h2

theorem colMax_eq_none_iff (l : List ℚ) : colMax l = none ↔ l = [] := by
  cases l <;> simp [colMax]

theorem le_foldl_min_iff (xs : List ℚ) (a c : ℚ) :
    c ≤ xs.foldl min a ↔ c ≤ a ∧ ∀ y ∈ xs, c ≤ y := by
  induction xs generalizing a with
  | nil => simp
  | cons x xs ih =>
    simp only [List.foldl_cons, ih, le_min_iff, List.mem_cons]
    constructor
    · rintro ⟨⟨h1, h2⟩, h3⟩
      exact ⟨h1, fun y hy => hy.elim (fun e => e ▸ h2) (h3 y)⟩
    · rintro ⟨h1, h2⟩
      exact ⟨⟨h1, h2 x (Or.inl rfl)⟩, fun y hy => h2 y (Or.inr hy)⟩

theorem foldl_min_mem (xs : List ℚ) (a : ℚ) :
    xs.foldl min a = a ∨ xs.foldl min a ∈ xs := by
  induction xs generalizing a with
  | nil => simp
  | cons x xs ih =>
    simp only [List.foldl_cons, List.mem_cons]
    rcases ih (min a x) with h | h
    · rcases min_cases a x with ⟨he, _⟩ | ⟨he, _⟩
      · exact Or.inl (h.trans he)
      · exact Or.inr (Or.inl (h.trans he))
    · exact Or.inr (Or.inr h)

/-- Characterization of `colMin`. -/
theorem colMin_eq_some_iff (l : List ℚ) (m : ℚ) :
    colMin l = some m ↔ m ∈ l ∧ ∀ y ∈ l, m ≤ y := by
  cases l with
  | nil => simp [colMin]
  | cons x xs =>
    simp only [colMin, Option.some_inj]
    constructor
    · rintro rfl
      have hle := (le_foldl_min_iff xs x (xs.foldl min x)).mp le_rfl
      refine ⟨?_, ?_⟩
      · rcases foldl_min_mem xs x with h | h
        · rw [h]; exact List.mem_cons_self x xs
        · exact List.mem_cons_of_mem x h
      · intro y hy
        rcases List.mem_cons.mp hy with rfl | hy
        · exact hle.1
        · exact hle.2 y hy
    · rintro ⟨hmem, hlb⟩
      have h1 : m ≤ xs.foldl min x := by
        refine (le_foldl_min_iff xs x m).mpr ⟨hlb x (List.mem_cons_self x xs), ?_⟩
        exact fun y hy => hlb y (List.mem_cons_of_mem x hy)
      have h2 : xs.foldl min x ≤ m := by
        rcases List.mem_cons.mp hmem with rfl | hm
        · exact ((le_foldl_min_iff xs m (xs.foldl min m)).mp le_rfl).1
        · exact ((le_foldl_min_iff xs x (xs.foldl min x)).mp le_rfl).2 m hm
      exact le_antisymm h2 h1

theorem colMin_eq_none_iff (l : List ℚ) : colMin l = none ↔ l = [] := by
  cases l <;> simp [colMin]

namespace DailyBuilder

/-- Quality flag reduction (daily_builder.py, `calculate_flagged`):
drop absent flags; an empty remainder resolves to `true`; otherwise the
disjunction of the present flags (`df["flagged"].any()`). -/
def calculate_flagged (obs : List WeatherRecord) : Bool :=
  let df := obs.filterMap (·.flagged)
  if df = [] then true else df.any id

/-- Pressure reduction (daily_builder.py, `calculate_pressure`): max and min
over the rows whose pressure is present; `(none, none)` when none is. -/
def calculate_pressure (obs : List WeatherRecord) : Option ℚ × Option ℚ :=
  let df := obs.filterMap (·.pressure)
  (colMax df, colMin df)

/-- Rainfall reduction (daily_builder.py, `calculate_rain`): drop rows with
an absent `cumulative_rain`; `none` when no row remains, otherwise the
maximum cumulative counter value.  The incremental `rain` column is not
read by this function. -/
def calculate_rain (obs : List WeatherRecord) : Option ℚ :=
  colMax (obs.filterMap (·.cumulative_rain))

/-- The present cells of the two wind-speed columns
(`df[["wind_speed", "max_wind_speed"]]` in `calculate_wind`). -/
def windSpeedCells (obs : List WeatherRecord) : List ℚ :=
  obs.filterMap (·.wind_speed) ++ obs.filterMap (·.max_wind_speed)

/-- The present cells of the two wind-gust columns
(`df[["max_wind_gust", "wind_gust"]]` in `calculate_wind`). -/
def windGustCells (obs : List WeatherRecord) : List ℚ :=
  obs.filterMap (·.max_wind_gust) ++ obs.filterMap (·.wind_gust)

/-- `df[wind_columns].max().max()`: overall maximum of the present cells of
the two speed columns (`none` models the all-NaN case). -/
def max_global_wind_speed (obs : List WeatherRecord) : Option ℚ :=
  colMax (windSpeedCells obs)

/-- `df[wind_gust_columns].max().max()`. -/
def max_global_wind_gust (obs : List WeatherRecord) : Option ℚ :=
  colMax (windGustCells obs)

/-- Rows of `df[["wind_speed", "wind_direction"]].dropna()`: the (speed,
direction) pairs with both entries present, in row order. -/
def validWind (obs : List WeatherRecord) : List (ℚ × ℚ) :=
  obs.filterMap fun r =>
    match r.wind_speed, r.wind_direction with
    | some s, some d => some (s, d)
    | _, _ => none

/-- `valid_data[wind_speed_column].sum()`: the total speed weight. -/
def windWeight (obs : List WeatherRecord) : ℚ :=
  ((validWind obs).map Prod.fst).sum

/-- Two-argument arctangent, the model of `np.arctan2 y x`: the argument of
the complex number `x + y*I`, in `(-pi, pi]`. -/
noncomputable def atan2 (y x : ℝ) : ℝ := Complex.arg ⟨x, y⟩

/-- `np.deg2rad`. -/
noncomputable def deg2rad (d : ℚ) : ℝ := (d : ℝ) * Real.pi / 180

/-- `np.rad2deg`. -/
noncomputable def rad2deg (r : ℝ) : ℝ := r * 180 / Real.pi

/-- Python float `%` with a positive modulus: `x - 360 * ⌊x / 360⌋`,
always in `[0, 360)`. -/
noncomputable def fmod360 (x : ℝ) : ℝ := x - 360 * (⌊x / 360⌋ : ℤ)

/-- `Σ cos(θ_i)·s_i` over the valid (speed, direction) pairs
(the series `x` in `calculate_wind`). -/
noncomputable def windX (obs : List WeatherRecord) : ℝ :=
  ((validWind obs).map fun p => Real.cos (deg2rad p.2) * (p.1 : ℝ)).sum

/-- `Σ sin(θ_i)·s_i` over the valid (speed, direction) pairs
(the series `y` in `calculate_wind`). -/
noncomputable def windY (obs : List WeatherRecord) : ℝ :=
  ((validWind obs).map fun p => Real.sin (deg2rad p.2) * (p.1 : ℝ)).sum

/-- Wind reduction (daily_builder.py, `calculate_wind`), returning
`(max_wind_speed, max_wind_gust, avg_wind_direction)`.  The direction is
`none` when no valid (speed, direction) pair exists or the total weight is
zero; otherwise `atan2` of the weight-normalized mean vector, converted to
degrees, reduced modulo 360 and truncated by Python `int(...)` — the value
is nonnegative, so the truncation is the floor. -/
noncomputable def calculate_wind (obs : List WeatherRecord) :
    Option ℚ × Option ℚ × Option ℤ :=
  if validWind obs = [] ∨ windWeight obs = 0 then
    (max_global_wind_speed obs, max_global_wind_gust obs, none)
  else
    let xm : ℝ := windX obs / (windWeight obs : ℝ)
    let ym : ℝ := windY obs / (windWeight obs : ℝ)
    (max_global_wind_speed obs, max_global_wind_gust obs,
      some ⌊fmod360 (rad2deg (atan2 ym xm))⌋)

/-- Temperature reduction (daily_builder.py, `calculate_temperature`):
max side combines the device running-max column with the instantaneous
column, falling back to whichever is present; min side likewise; the
average uses the instantaneous column only. -/
def calculate_temperature (obs : List WeatherRecord) :
    Option ℚ × Option ℚ × Option ℚ :=
  let maxmax := colMax (obs.filterMap (·.max_temperature))
  let tmax := colMax (obs.filterMap (·.temperature))
  let max_temperature :=
    match maxmax, tmax with
    | none, t => t
    | some a, none => some a
    | some a, some b => some (max a b)
  let minmin := colMin (obs.filterMap (·.min_temperature))
  let tmin := colMin (obs.filterMap (·.temperature))
  let min_temperature :=
    match minmin, tmin with
    | none, t => t
    | some a, none => some a
    | some a, some b => some (min a b)
  let tpresent := obs.filterMap (·.temperature)
  let avg_temperature :=
    if tpresent = [] then none else some (colMean tpresent)
  (max_temperature, min_temperature, avg_temperature)

/-- Humidity reduction (daily_builder.py, `calculate_humidity`). -/
def calculate_humidity (obs : List WeatherRecord) :
    Option ℚ × Option ℚ × Option ℚ :=
  let df := obs.filterMap (·.humidity)
  if df = [] then (none, none, none)
  else (colMax df, colMin df, some (colMean df))

/-- Assembly of the daily summary (daily_builder.py, `_generate_record`).
`meta_construction_data` models the JSON list of contributing source
record identifiers. -/
noncomputable def generate_record (station : WeatherStation)
    (obs : List WeatherRecord) (date : Nat) (run_id : String) : DailyRecord :=
  let flagged := calculate_flagged obs
  let p := calculate_pressure obs
  let w := calculate_wind obs
  let t := calculate_temperature obs
  let h := calculate_humidity obs
  let total_rain := calculate_rain obs
  { id := none
    station_id := station.id
    date := date
    max_temperature := t.1
    min_temperature := t.2.1
    max_wind_speed := w.1
    max_wind_gust := w.2.1
    avg_wind_direction := w.2.2
    max_pressure := p.1
    min_pressure := p.2
    rain := total_rain
    flagged := flagged
    finished := true
    processor_thread_id := run_id
    avg_temperature := t.2.2
    max_humidity := h.1
    avg_humidity := h.2.2
    min_humidity := h.2.1
    timezone := station.local_timezone
    meta_construction_data := obs.filterMap (·.id)
    monthly_record_id := none }

/-- The two wind maxima returned by `calculate_wind` do not depend on the
direction branch. -/
theorem calculate_wind_fst (obs : List WeatherRecord) :
    (calculate_wind obs).1 = max_global_wind_speed obs := by
  unfold calculate_wind
  split <;> rfl

theorem calculate_wind_snd (obs : List WeatherRecord) :
    (calculate_wind obs).2.1 = max_global_wind_gust obs := by
  unfold calculate_wind
  split <;> rfl

end DailyBuilder

/-- A base observation row with every optional cell absent, used for
concrete instances. -/
def obsBase : WeatherRecord :=
  { id := none
    station_id := "s"
    source_timestamp := 0
    temperature := none
    wind_speed := none
    max_wind_speed := none
    wind_direction := none
    rain := none
    humidity := none
    pressure := none
    flagged := none
    taken_timestamp := 0
    gatherer_thread_id := "g"
    cumulative_rain := none
    max_temperature := none
    min_temperature := none
    wind_gust := none
    max_wind_gust := none }

/-- Transcription of the two-source rainfall policy asserted by claim C1
(spec section 4.2, Rainfall), written from the claim text for refutation:
a present nonzero cumulative counter selects the counter maximum,
otherwise the incremental values are summed, and the result is null only
when neither source has data. -/
def rainTwoSourcePolicy (obs : List WeatherRecord) : Option ℚ :=
  if (obs.filterMap (·.cumulative_rain)).any (· != 0) then
    colMax (obs.filterMap (·.cumulative_rain))
  else if (obs.filterMap (·.rain)) = [] then none
  else some (obs.filterMap (·.rain)).sum

/-- C1 counterexample: an observation set whose only rain datum is an
incremental value of 2 and with no cumulative counter at all.  The claimed
two-source policy yields 2, but `calculate_rain` yields null — the code
never reads the incremental column. -/
theorem C1_counterexample :
    DailyBuilder.calculate_rain [{ obsBase with rain := some 2 }] = none ∧
    rainTwoSourcePolicy [{ obsBase with rain := some 2 }] = some 2 ∧
    DailyBuilder.calculate_rain [{ obsBase with rain := some 2 }] ≠
      rainTwoSourcePolicy [{ obsBase with rain := some 2 }] := by
  have h1 : DailyBuilder.calculate_rain [{ obsBase with rain := some 2 }] =
      none := by decide
  have h2 : rainTwoSourcePolicy [{ obsBase with rain := some 2 }] =
      some 2 := by
    norm_num [rainTwoSourcePolicy, colMax, obsBase, List.filterMap_cons,
      List.filterMap_nil]
  refine ⟨h1, h2, ?_⟩
  rw [h1, h2]
  exact fun h => Option.noConfusion h

/-- C1 (amended): the daily rainfall total is the maximum of the present
cumulative-rain counter values (zero counters included); it is null exactly
when no observation carries a cumulative counter; and the incremental
`rain` column never influences the result. -/
theorem C1_rain_max_of_cumulative (obs : List WeatherRecord) :
    (DailyBuilder.calculate_rain obs = none ↔
      ∀ r ∈ obs, r.cumulative_rain = none) ∧
    (∀ m : ℚ, DailyBuilder.calculate_rain obs = some m ↔
      (∃ r ∈ obs, r.cumulative_rain = some m) ∧
        ∀ r ∈ obs, ∀ q, r.cumulative_rain = some q → q ≤ m) ∧
    (∀ f : WeatherRecord → Option ℚ,
      DailyBuilder.calculate_rain (obs.map fun r => { r with rain := f r }) =
        DailyBuilder.calculate_rain obs) := by
  refine ⟨?_, ?_, ?_⟩
  · rw [DailyBuilder.calculate_rain, colMax_eq_none_iff,
      List.filterMap_eq_nil_iff]
  · intro m
    rw [DailyBuilder.calculate_rain, colMax_eq_some_iff]
    constructor
    · rintro ⟨hm, hub⟩
      rcases List.mem_filterMap.mp hm with ⟨r, hr, he⟩
      exact ⟨⟨r, hr, he⟩,
        fun r2 hr2 q hq => hub q (List.mem_filterMap.mpr ⟨r2, hr2, hq⟩)⟩
    · rintro ⟨⟨r, hr, he⟩, hub⟩
      refine ⟨List.mem_filterMap.mpr ⟨r, hr, he⟩, fun y hy => ?_⟩
      rcases List.mem_filterMap.mp hy with ⟨r2, hr2, he2⟩
      exact hub r2 hr2 y he2
  · intro f
    rw [DailyBuilder.calculate_rain, DailyBuilder.calculate_rain,
      List.filterMap_map]
    rfl

/-- Witness for C1 (amended) at a cumulative counter series
`[0, 12, 25, 20]` shaped like the spec example `[0.0, 1.2, 2.5, 2.0]`
(scaled to integers): the total is the maximum counter value, 25, not the
sum. -/
theorem C1_witness :
    DailyBuilder.calculate_rain
      [{ obsBase with cumulative_rain := some 0 },
       { obsBase with cumulative_rain := some 12 },
       { obsBase with cumulative_rain := some 25 },
       { obsBase with cumulative_rain := some 20 }] = some 25 :=
  ((C1_rain_max_of_cumulative _).2.1 25).mpr (by decide)

/-- Transcription of the single-overall-maximum wind policy asserted by
claim C2 (spec section 4.2, Wind magnitude), written from the claim text
for refutation: one maximum over all four wind-speed-like columns. -/
def overallWindClaim (obs : List WeatherRecord) : Option ℚ :=
  colMax (DailyBuilder.windSpeedCells obs ++ DailyBuilder.windGustCells obs)

/-- C2 counterexample: one observation with instantaneous wind speed 10 and
instantaneous gust 50.  The overall four-column maximum is 50, but the
daily max wind speed reported by the builder is 10: the code reduces the
two speed columns and the two gust columns separately and never merges
them into one magnitude. -/
theorem C2_counterexample :
    (DailyBuilder.calculate_wind
        [{ obsBase with wind_speed := some 10, wind_gust := some 50 }]).1 =
      some 10 ∧
    overallWindClaim
        [{ obsBase with wind_speed := some 10, wind_gust := some 50 }] =
      some 50 ∧
    (DailyBuilder.calculate_wind
        [{ obsBase with wind_speed := some 10, wind_gust := some 50 }]).1 ≠
      overallWindClaim
        [{ obsBase with wind_speed := some 10, wind_gust := some 50 }] := by
  rw [DailyBuilder.calculate_wind_fst]
  refine ⟨by decide, by decide, by decide⟩

theorem colMax_append_some (l1 l2 : List ℚ) (a b : ℚ)
    (h1 : colMax l1 = some a) (h2 : colMax l2 = some b) :
    colMax (l1 ++ l2) = some (max a b) := by
  rcases (colMax_eq_some_iff l1 a).mp h1 with ⟨ha, hua⟩
  rcases (colMax_eq_some_iff l2 b).mp h2 with ⟨hb, hub⟩
  refine (colMax_eq_some_iff _ _).mpr ⟨?_, ?_⟩
  · rcases le_total a b with h | h
    · rw [max_eq_right h]; exact List.mem_append_right l1 hb
    · rw [max_eq_left h]; exact List.mem_append_left l2 ha
  · intro y hy
    rcases List.mem_append.mp hy with hy | hy
    · exact le_trans (hua y hy) (le_max_left a b)
    · exact le_trans (hub y hy) (le_max_right a b)

/-- C2 (amended): the builder reports two separate maxima — the daily max
wind speed is the greatest present cell of the two speed columns and the
daily max wind gust the greatest present cell of the two gust columns;
the single overall four-column maximum of the claim equals the larger of
the two reported values whenever both exist. -/
theorem C2_wind_maxima_split (obs : List WeatherRecord) :
    (∀ m : ℚ, (DailyBuilder.calculate_wind obs).1 = some m ↔
      m ∈ DailyBuilder.windSpeedCells obs ∧
        ∀ y ∈ DailyBuilder.windSpeedCells obs, y ≤ m) ∧
    (∀ m : ℚ, (DailyBuilder.calculate_wind obs).2.1 = some m ↔
      m ∈ DailyBuilder.windGustCells obs ∧
        ∀ y ∈ DailyBuilder.windGustCells obs, y ≤ m) ∧
    (∀ a b : ℚ, (DailyBuilder.calculate_wind obs).1 = some a →
      (DailyBuilder.calculate_wind obs).2.1 = some b →
      overallWindClaim obs = some (max a b)) := by
  rw [DailyBuilder.calculate_wind_fst, DailyBuilder.calculate_wind_snd]
  refine ⟨?_, ?_, ?_⟩
  · intro m
    exact colMax_eq_some_iff _ m
  · intro m
    exact colMax_eq_some_iff _ m
  · intro a b h1 h2
    exact colMax_append_some _ _ a b h1 h2

/-- Witness for C2 (amended): with speed cells `{5, 8}` and gust cells
`{13, 10}` the reported daily max wind speed is 8 (the test set of
test_daily_processor.py). -/
theorem C2_witness :
    (DailyBuilder.calculate_wind
        [{ obsBase with wind_speed := some 5, max_wind_speed := some 6, wind_gust := some 10, max_wind_gust := some 11 },
         { obsBase with wind_speed := some 8, max_wind_speed := some 7, wind_gust := some 12, max_wind_gust := some 13 }]).1 =
      some 8 :=
  ((C2_wind_maxima_split _).1 8).mpr (by decide)

/-- C10 (confirmed): the daily flagged value is true exactly when some
observation has a present true flag or every observation's flag is absent;
hence it is false only when at least one flag is present and no present
flag is true. -/
theorem C10_flagged_resolution (obs : List WeatherRecord) :
    DailyBuilder.calculate_flagged obs = true ↔
      (∃ r ∈ obs, r.flagged = some true) ∨ (∀ r ∈ obs, r.flagged = none) := by
  unfold DailyBuilder.calculate_flagged
  by_cases h : obs.filterMap (·.flagged) = []
  · simp only [h, if_true, reduceIte]
    constructor
    · intro _
      exact Or.inr (List.filterMap_eq_nil_iff.mp h)
    · intro _
      trivial
  · simp only [h, reduceIte]
    constructor
    · intro htrue
      rcases List.any_eq_true.mp htrue with ⟨b, hb, hid⟩
      rcases List.mem_filterMap.mp hb with ⟨r, hr, he⟩
      have hbtrue : b = true := hid
      exact Or.inl ⟨r, hr, by rw [he, hbtrue]⟩
    · rintro (⟨r, hr, he⟩ | hall)
      · exact List.any_eq_true.mpr
          ⟨true, List.mem_filterMap.mpr ⟨r, hr, he⟩, rfl⟩
      · exact absurd (List.filterMap_eq_nil_iff.mpr hall) h

/-- Witness for C10 at an all-flags-absent observation set: flagged
resolves to true. -/
theorem C10_witness : DailyBuilder.calculate_flagged [obsBase, obsBase] = true :=
  (C10_flagged_resolution [obsBase, obsBase]).mpr (Or.inr (by decide))

/-- Python `round(x, 2)`: rounding to two decimal places, modelled as
rounding `x * 100` to the nearest integer (Python rounds exact half-ties
to even; no statement below depends on an exact half-tie). -/
def round2 (q : ℚ) : ℚ := round (q * 100) / 100

namespace MonthlyBuilder

/-- Temperature reduction (monthly_builder.py, `calculate_temperature`),
returning `(max_max, min_min, avg_avg, avg_max, avg_min)`: extreme and
mean of each daily temperature column among the rows where it is present,
each rounded to 2 decimals, `none` when no row has the column. -/
def calculate_temperature (rows : List DailyRecord) :
    Option ℚ × Option ℚ × Option ℚ × Option ℚ × Option ℚ :=
  let dmax := rows.filterMap (·.max_temperature)
  let dmin := rows.filterMap (·.min_temperature)
  let davg := rows.filterMap (·.avg_temperature)
  ((colMax dmax).map round2,
   (colMin dmin).map round2,
   if davg = [] then none else some (round2 (colMean davg)),
   if dmax = [] then none else some (round2 (colMean dmax)),
   if dmin = [] then none else some (round2 (colMean dmin)))

/-- Wind-gust reduction (monthly_builder.py, `calculate_wind`), returning
`(max_max_wind_gust, avg_max_wind_gust)`. -/
def calculate_wind (rows : List DailyRecord) : Option ℚ × Option ℚ :=
  let dmax := rows.filterMap (·.max_wind_gust)
  ((colMax dmax).map round2,
   if dmax = [] then none else some (round2 (colMean dmax)))

/-- The day midpoints `(max_pressure + min_pressure) / 2` over the rows
where both pressure extremes are present
(`df.dropna(subset=["max_pressure", "min_pressure"])`). -/
def pressureMids (rows : List DailyRecord) : List ℚ :=
  rows.filterMap fun r =>
    match r.max_pressure, r.min_pressure with
    | some a, some b => some ((a + b) / 2)
    | _, _ => none

/-- Pressure reduction (monthly_builder.py, `calculate_pressure`),
returning `(max_max, min_min, avg)`: the average is the mean of the day
midpoints over the rows with both extremes present, not a mean of the
extremes themselves. -/
def calculate_pressure (rows : List DailyRecord) :
    Option ℚ × Option ℚ × Option ℚ :=
  let dmax := rows.filterMap (·.max_pressure)
  let dmin := rows.filterMap (·.min_pressure)
  ((colMax dmax).map round2,
   (colMin dmin).map round2,
   if pressureMids rows = [] then none
   else some (round2 (colMean (pressureMids rows))))

/-- Rainfall reduction (monthly_builder.py, `calculate_rain`): sum of the
present daily totals, rounded, `none` when no row has one. -/
def calculate_rain (rows : List DailyRecord) : Option ℚ :=
  let dr := rows.filterMap (·.rain)
  if dr = [] then none else some (round2 dr.sum)

/-- Humidity reduction (monthly_builder.py, `calculate_humidity`),
returning `(max_max, min_min, avg)`: the average is the mean of the daily
average-humidity column, not of the daily extremes. -/
def calculate_humidity (rows : List DailyRecord) :
    Option ℚ × Option ℚ × Option ℚ :=
  let dmax := rows.filterMap (·.max_humidity)
  let dmin := rows.filterMap (·.min_humidity)
  let davg := rows.filterMap (·.avg_humidity)
  ((colMax dmax).map round2,
   (colMin dmin).map round2,
   if davg = [] then none else some (round2 (colMean davg)))

end MonthlyBuilder

/-- A base daily summary row with every optional cell absent, used for
concrete instances. -/
def dayBase : DailyRecord :=
  { id := none
    station_id := "s"
    date := 0
    max_temperature := none
    min_temperature := none
    max_wind_gust := none
    max_wind_speed := none
    avg_wind_direction := none
    max_pressure := none
    min_pressure := none
    rain := none
    flagged := false
    finished := true
    processor_thread_id := "t"
    avg_temperature := none
    max_humidity := none
    avg_humidity := none
    min_humidity := none
    timezone := "UTC"
    monthly_record_id := none
    meta_construction_data := [] }

/-- Transcription of the monthly-average policy asserted by claim C6 for
the pressure field (spec section 4.3), written from the claim text for
refutation: the monthly average is the 2-decimal-rounded mean of the
present daily extremes, and a field is null only when zero daily values
are present. -/
def pressureAvgClaim (rows : List DailyRecord) : Option ℚ :=
  let ext := rows.filterMap (·.max_pressure) ++ rows.filterMap (·.min_pressure)
  if ext = [] then none else some (round2 (colMean ext))

/-- C6 counterexample: a month with one daily row carrying only a max
pressure of 10.  The claimed mean of present daily extremes is 10, but the
code averages day midpoints over rows where both pressure extremes are
present, so it returns null although a daily value is present. -/
theorem C6_counterexample :
    (MonthlyBuilder.calculate_pressure
        [{ dayBase with max_pressure := some 10 }]).2.2 = none ∧
    pressureAvgClaim [{ dayBase with max_pressure := some 10 }] = some 10 ∧
    (MonthlyBuilder.calculate_pressure
        [{ dayBase with max_pressure := some 10 }]).2.2 ≠
      pressureAvgClaim [{ dayBase with max_pressure := some 10 }] := by
  have h1 : (MonthlyBuilder.calculate_pressure
      [{ dayBase with max_pressure := some 10 }]).2.2 = none := by decide
  have h2 : pressureAvgClaim [{ dayBase with max_pressure := some 10 }] =
      some 10 := by
    norm_num [pressureAvgClaim, colMean, round2, dayBase, List.filterMap_cons,
      List.filterMap_nil]
  refine ⟨h1, h2, ?_⟩
  rw [h1, h2]
  exact fun h => Option.noConfusion h

/-- C6 (amended): for every extreme-track field (temperature, pressure,
humidity, wind-gust-max) the monthly extreme is the 2-decimal-rounded max
(or min, per field) of the present daily extremes, null exactly when no
daily value is present; the temperature and wind-gust monthly averages
are the rounded mean of the same present daily extremes; but the pressure
average is the rounded mean of the day midpoints `(max + min) / 2` over
the days with both extremes present (null exactly when no day has both),
and the humidity average is the rounded mean of the daily
average-humidity values (null exactly when none is present). -/
theorem C6_monthly_reduction (rows : List DailyRecord) :
    ((MonthlyBuilder.calculate_temperature rows).1 = none ↔
      rows.filterMap (·.max_temperature) = []) ∧
    (∀ m, m ∈ rows.filterMap (·.max_temperature) →
      (∀ y ∈ rows.filterMap (·.max_temperature), y ≤ m) →
      (MonthlyBuilder.calculate_temperature rows).1 = some (round2 m)) ∧
    ((MonthlyBuilder.calculate_temperature rows).2.1 = none ↔
      rows.filterMap (·.min_temperature) = []) ∧
    (∀ m, m ∈ rows.filterMap (·.min_temperature) →
      (∀ y ∈ rows.filterMap (·.min_temperature), m ≤ y) →
      (MonthlyBuilder.calculate_temperature rows).2.1 = some (round2 m)) ∧
    ((MonthlyBuilder.calculate_temperature rows).2.2.2.1 = none ↔
      rows.filterMap (·.max_temperature) = []) ∧
    (rows.filterMap (·.max_temperature) ≠ [] →
      (MonthlyBuilder.calculate_temperature rows).2.2.2.1 =
        some (round2 (colMean (rows.filterMap (·.max_temperature))))) ∧
    ((MonthlyBuilder.calculate_temperature rows).2.2.2.2 = none ↔
      rows.filterMap (·.min_temperature) = []) ∧
    (rows.filterMap (·.min_temperature) ≠ [] →
      (MonthlyBuilder.calculate_temperature rows).2.2.2.2 =
        some (round2 (colMean (rows.filterMap (·.min_temperature))))) ∧
    ((MonthlyBuilder.calculate_wind rows).1 = none ↔
      rows.filterMap (·.max_wind_gust) = []) ∧
    (∀ m, m ∈ rows.filterMap (·.max_wind_gust) →
      (∀ y ∈ rows.filterMap (·.max_wind_gust), y ≤ m) →
      (MonthlyBuilder.calculate_wind rows).1 = some (round2 m)) ∧
    ((MonthlyBuilder.calculate_wind rows).2 = none ↔
      rows.filterMap (·.max_wind_gust) = []) ∧
    (rows.filterMap (·.max_wind_gust) ≠ [] →
      (MonthlyBuilder.calculate_wind rows).2 =
        some (round2 (colMean (rows.filterMap (·.max_wind_gust))))) ∧
    ((MonthlyBuilder.calculate_pressure rows).1 = none ↔
      rows.filterMap (·.max_pressure) = []) ∧
    (∀ m, m ∈ rows.filterMap (·.max_pressure) →
      (∀ y ∈ rows.filterMap (·.max_pressure), y ≤ m) →
      (MonthlyBuilder.calculate_pressure rows).1 = some (round2 m)) ∧
    ((MonthlyBuilder.calculate_pressure rows).2.1 = none ↔
      rows.filterMap (·.min_pressure) = []) ∧
    (∀ m, m ∈ rows.filterMap (·.min_pressure) →
      (∀ y ∈ rows.filterMap (·.min_pressure), m ≤ y) →
      (MonthlyBuilder.calculate_pressure rows).2.1 = some (round2 m)) ∧
    ((MonthlyBuilder.calculate_pressure rows).2.2 = none ↔
      MonthlyBuilder.pressureMids rows = []) ∧
    (MonthlyBuilder.pressureMids rows ≠ [] →
      (MonthlyBuilder.calculate_pressure rows).2.2 =
        some (round2 (colMean (MonthlyBuilder.pressureMids rows)))) ∧
    ((MonthlyBuilder.calculate_humidity rows).1 = none ↔
      rows.filterMap (·.max_humidity) = []) ∧
    (∀ m, m ∈ rows.filterMap (·.max_humidity) →
      (∀ y ∈ rows.filterMap (·.max_humidity), y ≤ m) →
      (MonthlyBuilder.calculate_humidity rows).1 = some (round2 m)) ∧
    ((MonthlyBuilder.calculate_humidity rows).2.1 = none ↔
      rows.filterMap (·.min_humidity) = []) ∧
    (∀ m, m ∈ rows.filterMap (·.min_humidity) →
      (∀ y ∈ rows.filterMap (·.min_humidity), m ≤ y) →
      (MonthlyBuilder.calculate_humidity rows).2.1 = some (round2 m)) ∧
    ((MonthlyBuilder.calculate_humidity rows).2.2 = none ↔
      rows.filterMap (·.avg_humidity) = []) ∧
    (rows.filterMap (·.avg_humidity) ≠ [] →
      (MonthlyBuilder.calculate_humidity rows).2.2 =
        some (round2 (colMean (rows.filterMap (·.avg_humidity))))) := by
  refine ⟨?_, ?_, ?_, ?_, ?_, ?_, ?_, ?_, ?_, ?_, ?_, ?_, ?_, ?_, ?_, ?_,
    ?_, ?_, ?_, ?_, ?_, ?_, ?_, ?_⟩
  · simp only [MonthlyBuilder.calculate_temperature, Option.map_eq_none']
    exact colMax_eq_none_iff _
  · intro m hm hub
    simp only [MonthlyBuilder.calculate_temperature]
    rw [(colMax_eq_some_iff _ m).mpr ⟨hm, hub⟩]
    rfl
  · simp only [MonthlyBuilder.calculate_temperature, Option.map_eq_none']
    exact colMin_eq_none_iff _
  · intro m hm hlb
    simp only [MonthlyBuilder.calculate_temperature]
    rw [(colMin_eq_some_iff _ m).mpr ⟨hm, hlb⟩]
    rfl
  · simp only [MonthlyBuilder.calculate_temperature]
    by_cases h : rows.filterMap (·.max_temperature) = [] <;> simp [h]
  · intro h
    simp only [MonthlyBuilder.calculate_temperature, h, reduceIte, if_neg]
  · simp only [MonthlyBuilder.calculate_temperature]
    by_cases h : rows.filterMap (·.min_temperature) = [] <;> simp [h]
  · intro h
    simp only [MonthlyBuilder.calculate_temperature, h, reduceIte, if_neg]
  · simp only [MonthlyBuilder.calculate_wind, Option.map_eq_none']
    exact colMax_eq_none_iff _
  · intro m hm hub
    simp only [MonthlyBuilder.calculate_wind]
    rw [(colMax_eq_some_iff _ m).mpr ⟨hm, hub⟩]
    rfl
  · simp only [MonthlyBuilder.calculate_wind]
    by_cases h : rows.filterMap (·.max_wind_gust) = [] <;> simp [h]
  · intro h
    simp only [MonthlyBuilder.calculate_wind, h, reduceIte, if_neg]
  · simp only [MonthlyBuilder.calculate_pressure, Option.map_eq_none']
    exact colMax_eq_none_iff _
  · intro m hm hub
    simp only [MonthlyBuilder.calculate_pressure]
    rw [(colMax_eq_some_iff _ m).mpr ⟨hm, hub⟩]
    rfl
  · simp only [MonthlyBuilder.calculate_pressure, Option.map_eq_none']
    exact colMin_eq_none_iff _
  · intro m hm hlb
    simp only [MonthlyBuilder.calculate_pressure]
    rw [(colMin_eq_some_iff _ m).mpr ⟨hm, hlb⟩]
    rfl
  · simp only [MonthlyBuilder.calculate_pressure]
    by_cases h : MonthlyBuilder.pressureMids rows = [] <;> simp [h]
  · intro h
    simp only [MonthlyBuilder.calculate_pressure, h, reduceIte, if_neg]
  · simp only [MonthlyBuilder.calculate_humidity, Option.map_eq_none']
    exact colMax_eq_none_iff _
  · intro m hm hub
    simp only [MonthlyBuilder.calculate_humidity]
    rw [(colMax_eq_some_iff _ m).mpr ⟨hm, hub⟩]
    rfl
  · simp only [MonthlyBuilder.calculate_humidity, Option.map_eq_none']
    exact colMin_eq_none_iff _
  · intro m hm hlb
    simp only [MonthlyBuilder.calculate_humidity]
    rw [(colMin_eq_some_iff _ m).mpr ⟨hm, hlb⟩]
    rfl
  · simp only [MonthlyBuilder.calculate_humidity]
    by_cases h : rows.filterMap (·.avg_humidity) = [] <;> simp [h]
  · intro h
    simp only [MonthlyBuilder.calculate_humidity, h, reduceIte, if_neg]

/-- Witness for C6 (amended) at daily max temperatures `[20, 22, 21]`:
monthly max-of-max is 22, monthly avg-of-max is 21 (the mean of the daily
maxima, spec section 8 example), and the all-absent min-temperature field
resolves to null, never zero. -/
theorem C6_witness :
    (MonthlyBuilder.calculate_temperature
        [{ dayBase with max_temperature := some 20 },
         { dayBase with max_temperature := some 22 },
         { dayBase with max_temperature := some 21 }]).1 = some 22 ∧
    (MonthlyBuilder.calculate_temperature
        [{ dayBase with max_temperature := some 20 },
         { dayBase with max_temperature := some 22 },
         { dayBase with max_temperature := some 21 }]).2.2.2.1 =
      some 21 ∧
    (MonthlyBuilder.calculate_temperature
        [{ dayBase with max_temperature := some 20 },
         { dayBase with max_temperature := some 22 },
         { dayBase with max_temperature := some 21 }]).2.1 = none := by
  obtain ⟨_, hmaxc, hminn, _, _, havgmax, _⟩ :=
    C6_monthly_reduction
      [{ dayBase with max_temperature := some 20 },
       { dayBase with max_temperature := some 22 },
       { dayBase with max_temperature := some 21 }]
  refine ⟨?_, ?_, ?_⟩
  · rw [hmaxc 22 (by decide) (by decide)]
    norm_num [round2]
  · rw [havgmax (by decide)]
    norm_num [colMean, round2, dayBase, List.filterMap_cons,
      List.filterMap_nil]
  · exact hminn.mpr (by decide)

/-- Days since 1970-01-01 of the proleptic-Gregorian civil date
`(y, m, d)` with `1 ≤ m ≤ 12`, `1 ≤ d` (the standard civil-from-days
era/year-of-era computation, valid for `y ≥ 1`).  This models
`datetime.date` arithmetic for the UTC instants of the scheduler. -/
def daysFromCivil (y m d : ℕ) : ℤ :=
  let yAdj := if m ≤ 2 then y - 1 else y
  let era := yAdj / 400
  let yoe := yAdj % 400
  let mp := (m + 9) % 12
  let doy := (153 * mp + 2) / 5 + (d - 1)
  let doe := yoe * 365 + yoe / 4 - yoe / 100 + doy
  (era * 146097 + doe : ℤ) - 719468

/-- Seconds since the Unix epoch of the UTC civil instant
`(y, m, d, h, mi, s)`: the model of `datetime(y, m, d, h, mi, s, 0, UTC)`. -/
def toSecs (y m d h mi s : ℕ) : ℤ :=
  daysFromCivil y m d * 86400 + h * 3600 + mi * 60 + s

namespace Scheduler

/-- Month window (scheduler.py, `get_month_interval`): first instant of the
month in UTC through one second before the first instant of the following
month, December rolling over to January of the next year. -/
def get_month_interval (y m : ℕ) : ℤ × ℤ :=
  let start_of_month := toSecs y m 1 0 0 0
  let next_month :=
    if m = 12 then toSecs (y + 1) 1 1 0 0 0 else toSecs y (m + 1) 1 0 0 0
  (start_of_month, next_month - 1)

end Scheduler

namespace Processor

/-- The month window computed inline by `fill_up_queue_with_pending`
(processor.py): the next-month instant uses
`entry.month + 1 if entry.month < 12 else 1` for the month but keeps
`entry.year` unchanged — December does not roll the year forward. -/
def pending_month_interval (y m : ℕ) : ℤ × ℤ :=
  (toSecs y m 1 0 0 0,
   toSecs y (if m < 12 then m + 1 else 1) 1 0 0 0 - 1)

end Processor

/-- C3: for a pending reaggregation request dated December 2023 the inline
window of the Orchestrator disagrees with `Scheduler.get_month_interval`:
the inline end is one second before January 1 of the SAME year — eleven
months before the window start, an empty interval — while the scheduler
ends the window one second before January 1, 2024. -/
theorem C3_december_window_mismatch :
    Processor.pending_month_interval 2023 12 ≠
      Scheduler.get_month_interval 2023 12 ∧
    (Processor.pending_month_interval 2023 12).2 <
      (Processor.pending_month_interval 2023 12).1 ∧
    Processor.pending_month_interval 2023 12 =
      (toSecs 2023 12 1 0 0 0, toSecs 2023 1 1 0 0 0 - 1) ∧
    Scheduler.get_month_interval 2023 12 =
      (toSecs 2023 12 1 0 0 0, toSecs 2024 1 1 0 0 0 - 1) := by
  exact ⟨by decide, by decide, by decide, by decide⟩

/-- For January through November the inline pending window and the
scheduler's month window agree; the divergence of
`C3_december_window_mismatch` is December only. -/
theorem pending_month_interval_eq_of_lt (y m : ℕ) (h : m < 12) :
    Processor.pending_month_interval y m = Scheduler.get_month_interval y m := by
  unfold Processor.pending_month_interval Scheduler.get_month_interval
  rw [if_pos h, if_neg (by omega)]

/-- A timezone as the scheduler observes one: the UTC offset (seconds east
of UTC) attached to a local civil time, with Python zoneinfo fold-0
disambiguation baked into the function. -/
structure TzModel where
  offsetAt : ℤ → ℤ

/-- A timezone-aware datetime: the naive civil reading (seconds since the
epoch of its civil components) plus its zone.  Python arithmetic between
an aware datetime and a timedelta acts on the civil components and keeps
the zone. -/
structure AwareDT where
  civil : ℤ
  tz : TzModel

/-- The absolute instant of an aware datetime: civil reading minus the
zone's UTC offset at that reading. -/
def AwareDT.epoch (t : AwareDT) : ℤ := t.civil - t.tz.offsetAt t.civil

namespace Scheduler

/-- Full-day windows (scheduler.py, `get_full_day_intervals`): per
timezone, the aware datetime `date 00:00:00` in that zone, and that start
plus one day minus one second (Python wall-clock arithmetic on the civil
components). -/
def get_full_day_intervals (y m d : ℕ) (tzs : List TzModel) :
    List (TzModel × AwareDT × AwareDT) :=
  tzs.map fun tz =>
    let start_of_day : AwareDT := ⟨toSecs y m d 0 0 0, tz⟩
    (tz, start_of_day, ⟨start_of_day.civil + 86400 - 1, tz⟩)

end Scheduler

theorem toSecs_end_of_day (y m d : ℕ) :
    toSecs y m d 23 59 59 = toSecs y m d 0 0 0 + 86400 - 1 := by
  unfold toSecs
  ring

/-- C5 (confirmed): for every date and every timezone in the configured
set, the full-day interval starts at local civil time 00:00:00 and ends at
local civil time 23:59:59 of the requested date; its absolute duration is
86399 seconds corrected by the start/end offset difference, so whenever
the zone's DST shift across the day is a whole hour (or absent) the
duration is 23, 24 or 25 hours minus one second — never a fixed 86400. -/
theorem C5_full_day_intervals (y m d : ℕ) (tzs : List TzModel) (tz : TzModel)
    (htz : tz ∈ tzs) :
    ∃ s e : AwareDT, (tz, s, e) ∈ Scheduler.get_full_day_intervals y m d tzs ∧
      s.civil = toSecs y m d 0 0 0 ∧
      e.civil = toSecs y m d 23 59 59 ∧
      e.epoch - s.epoch =
        86399 + (tz.offsetAt s.civil - tz.offsetAt e.civil) ∧
      ((tz.offsetAt s.civil - tz.offsetAt e.civil = -3600 ∨
        tz.offsetAt s.civil - tz.offsetAt e.civil = 0 ∨
        tz.offsetAt s.civil - tz.offsetAt e.civil = 3600) →
        (e.epoch - s.epoch = 82799 ∨
         e.epoch - s.epoch = 86399 ∨
         e.epoch - s.epoch = 89999)) := by
  refine ⟨⟨toSecs y m d 0 0 0, tz⟩, ⟨toSecs y m d 0 0 0 + 86400 - 1, tz⟩,
    List.mem_map.mpr ⟨tz, htz, rfl⟩, rfl, ?_, ?_, ?_⟩
  · rw [toSecs_end_of_day]
  · simp only [AwareDT.epoch]
    ring
  · intro hshift
    simp only [AwareDT.epoch] at hshift ⊢
    omega

/-- A model of Europe/Madrid around the 2024-10-27 DST end: offset 7200
(CEST) for local civil times before 03:00:00 that day, 3600 (CET) after. -/
def madridModel : TzModel :=
  ⟨fun c => if c < toSecs 2024 10 27 3 0 0 then 7200 else 3600⟩

/-- Witness for C5 at 2024-10-27 in the Madrid model: the day of the DST
end lasts 25 hours minus one second. -/
theorem C5_witness :
    ∃ s e : AwareDT,
      (madridModel, s, e) ∈
        Scheduler.get_full_day_intervals 2024 10 27 [madridModel] ∧
      s.civil = toSecs 2024 10 27 0 0 0 ∧
      e.civil = toSecs 2024 10 27 23 59 59 ∧
      e.epoch - s.epoch = 89999 := by
  obtain ⟨s, e, hp, hA, hB, hC, _⟩ :=
    C5_full_day_intervals 2024 10 27 [madridModel] madridModel
      (List.mem_singleton.mpr rfl)
  refine ⟨s, e, hp, hA, hB, ?_⟩
  have hoffA : madridModel.offsetAt s.civil = 7200 := by
    rw [hA]
    decide
  have hoffB : madridModel.offsetAt e.civil = 3600 := by
    rw [hB]
    decide
  rw [hC, hoffA, hoffB]
  decide

/-- A persisted `daily_record` row: the stored columns plus the
out-of-band `was_manually_edited` flag (present in the table, never set by
this repository). -/
structure StoredDailyRow where
  row : DailyRecord
  was_manually_edited : Bool
  deriving DecidableEq

namespace Database

/-- Key comparison of the unique index `(station_id, date)`. -/
def rowKeyMatches (r : StoredDailyRow) (station_id : String) (date : Nat) : Bool :=
  r.row.station_id == station_id && r.row.date == date

/-- The `ON CONFLICT (station_id, date) DO UPDATE SET ...` assignment of
`save_daily_record`: every listed column — `monthly_record_id` included —
is replaced by the excluded (incoming) value; the stored `id` and the
`was_manually_edited` flag are not in the SET list and are kept. -/
def applyUpdate (r : StoredDailyRow) (rec : DailyRecord) : StoredDailyRow :=
  { row := { rec with id := r.row.id },
    was_manually_edited := r.was_manually_edited }

/-- The store state transformer of `save_daily_record` (database.py):
`INSERT ... SELECT ... WHERE NOT EXISTS (manually edited row for the key)
ON CONFLICT (station_id, date) DO UPDATE SET ... RETURNING id`.
`newId` models the `uuid.uuid4()` drawn when the record has no id.
Returns the new store and the fetched identifier — `none` models the
empty `RETURNING` result of the guarded no-op. -/
def save_daily_record (store : List StoredDailyRow) (rec : DailyRecord)
    (newId : String) : List StoredDailyRow × Option String :=
  let rid := rec.id.getD newId
  let rec2 : DailyRecord := { rec with id := some rid }
  if store.any fun r =>
      rowKeyMatches r rec.station_id rec.date && r.was_manually_edited then
    (store, none)
  else
    match store.find? fun r => rowKeyMatches r rec.station_id rec.date with
    | some r0 =>
      (store.map fun r =>
        if rowKeyMatches r rec.station_id rec.date then applyUpdate r rec2
        else r,
       r0.row.id)
    | none => (store ++ [⟨rec2, false⟩], some rid)

end Database

/-- A manually edited row exists in the store under the record's
`(station_id, date)` key. -/
def hasManualEdit (store : List StoredDailyRow) (rec : DailyRecord) : Prop :=
  ∃ r ∈ store, r.row.station_id = rec.station_id ∧ r.row.date = rec.date ∧
    r.was_manually_edited = true

instance (store : List StoredDailyRow) (rec : DailyRecord) :
    Decidable (hasManualEdit store rec) := by
  unfold hasManualEdit
  infer_instance

theorem rowKeyMatches_iff (r : StoredDailyRow) (s : String) (d : Nat) :
    Database.rowKeyMatches r s d = true ↔
      r.row.station_id = s ∧ r.row.date = d := by
  simp [Database.rowKeyMatches]

theorem hasManualEdit_iff_any (store : List StoredDailyRow)
    (rec : DailyRecord) :
    hasManualEdit store rec ↔
      (store.any fun r =>
        Database.rowKeyMatches r rec.station_id rec.date &&
          r.was_manually_edited) = true := by
  rw [List.any_eq_true]
  constructor
  · rintro ⟨r, hr, h1, h2, h3⟩
    exact ⟨r, hr, by
      rw [Bool.and_eq_true, rowKeyMatches_iff]
      exact ⟨⟨h1, h2⟩, h3⟩⟩
  · rintro ⟨r, hr, h⟩
    rw [Bool.and_eq_true, rowKeyMatches_iff] at h
    exact ⟨r, hr, h.1.1, h.1.2, h.2⟩

/-- The guarded branch: a manually edited row under the key makes
`save_daily_record` return the store unchanged and no identifier. -/
theorem save_daily_record_manual (store : List StoredDailyRow)
    (rec : DailyRecord) (newId : String) (h : hasManualEdit store rec) :
    Database.save_daily_record store rec newId = (store, none) := by
  unfold Database.save_daily_record
  rw [if_pos ((hasManualEdit_iff_any store rec).mp h)]

/-- The unguarded branch: afterwards every row under the key carries
exactly the incoming record's payload (only the stored `id` survives). -/
theorem save_daily_record_key_rows (store : List StoredDailyRow)
    (rec : DailyRecord) (newId : String) (h : ¬ hasManualEdit store rec) :
    ∀ r ∈ (Database.save_daily_record store rec newId).1,
      r.row.station_id = rec.station_id → r.row.date = rec.date →
      r.row = { rec with id := r.row.id } := by
  unfold Database.save_daily_record
  rw [if_neg (fun ha => h ((hasManualEdit_iff_any store rec).mpr ha))]
  rcases hf : store.find? fun r =>
      Database.rowKeyMatches r rec.station_id rec.date with _ | r0
  · intro r hr hks hkd
    rcases List.mem_append.mp hr with hmem | hmem
    · have hnone := List.find?_eq_none.mp hf r hmem
      exact absurd ((rowKeyMatches_iff r _ _).mpr ⟨hks, hkd⟩) hnone
    · rw [List.mem_singleton.mp hmem]
  · intro r hr hks hkd
    rcases List.mem_map.mp hr with ⟨a, ha, rfl⟩
    by_cases hk : Database.rowKeyMatches a rec.station_id rec.date = true
    · rw [if_pos hk]
      rfl
    · rw [if_neg hk] at hks hkd ⊢
      exact absurd ((rowKeyMatches_iff a _ _).mpr ⟨hks, hkd⟩) hk

/-- The unguarded branch always returns an identifier, provided every
stored row has one (the `id` column is the primary key). -/
theorem save_daily_record_returns_id (store : List StoredDailyRow)
    (rec : DailyRecord) (newId : String)
    (hwf : ∀ r ∈ store, r.row.id ≠ none) (h : ¬ hasManualEdit store rec) :
    (Database.save_daily_record store rec newId).2 ≠ none := by
  unfold Database.save_daily_record
  rw [if_neg (fun ha => h ((hasManualEdit_iff_any store rec).mpr ha))]
  rcases hf : store.find? fun r =>
      Database.rowKeyMatches r rec.station_id rec.date with _ | r0
  · exact fun hc => Option.noConfusion hc
  · exact hwf r0 (List.mem_of_find?_eq_some hf)

/-- The unguarded branch leaves a row under the key in the store. -/
theorem save_daily_record_key_row_exists (store : List StoredDailyRow)
    (rec : DailyRecord) (newId : String) (h : ¬ hasManualEdit store rec) :
    ∃ r ∈ (Database.save_daily_record store rec newId).1,
      r.row.station_id = rec.station_id ∧ r.row.date = rec.date := by
  unfold Database.save_daily_record
  rw [if_neg (fun ha => h ((hasManualEdit_iff_any store rec).mpr ha))]
  rcases hf : store.find? fun r =>
      Database.rowKeyMatches r rec.station_id rec.date with _ | r0
  · refine ⟨⟨{ rec with id := some (rec.id.getD newId) }, false⟩, ?_, rfl, rfl⟩
    exact List.mem_append_right store (List.mem_singleton.mpr rfl)
  · have hk := List.find?_some hf
    have hmem := List.mem_of_find?_eq_some hf
    refine ⟨Database.applyUpdate r0 { rec with id := some (rec.id.getD newId) },
      ?_, rfl, rfl⟩
    exact List.mem_map.mpr ⟨r0, hmem, by rw [if_pos hk]⟩

/-- C7 (confirmed): writing a daily summary whose stored `(station, date)`
row is marked manually edited leaves the store unchanged and returns no
identifier; for any other key the upsert leaves exactly the incoming
payload under the key (insert or replace) and returns an identifier
(given that every stored row has one, the `id` column being the primary
key). -/
theorem C7_upsert_manual_guard (store : List StoredDailyRow)
    (rec : DailyRecord) (newId : String) :
    (hasManualEdit store rec →
      Database.save_daily_record store rec newId = (store, none)) ∧
    ((∀ r ∈ store, r.row.id ≠ none) → ¬ hasManualEdit store rec →
      (Database.save_daily_record store rec newId).2 ≠ none ∧
      (∃ r ∈ (Database.save_daily_record store rec newId).1,
        r.row.station_id = rec.station_id ∧ r.row.date = rec.date) ∧
      ∀ r ∈ (Database.save_daily_record store rec newId).1,
        r.row.station_id = rec.station_id → r.row.date = rec.date →
        r.row = { rec with id := r.row.id }) := by
  refine ⟨save_daily_record_manual store rec newId, fun hwf h =>
    ⟨save_daily_record_returns_id store rec newId hwf h,
     save_daily_record_key_row_exists store rec newId h,
     save_daily_record_key_rows store rec newId h⟩⟩

/-- Witness for C7: a store holding one manually edited row for
`("s", 5)`; the upsert of a fresh record for that key is a no-op that
returns `none`. -/
theorem C7_witness :
    Database.save_daily_record
      [⟨{ dayBase with station_id := "s", date := 5, id := some "D", rain := some 7 }, true⟩]
      { dayBase with station_id := "s", date := 5, rain := some 9 } "N" =
    ([⟨{ dayBase with station_id := "s", date := 5, id := some "D", rain := some 7 }, true⟩],
      none) :=
  (C7_upsert_manual_guard _ _ _).1 (by decide)

/-- C4 counterexample: a stored non-manually-edited row for `("s", 5)`
carries the monthly back-reference `"M"`; upserting a freshly built daily
record (whose back-reference is `none`) clears the stored back-reference
instead of preserving it. -/
theorem C4_counterexample :
    (Database.save_daily_record
        [⟨{ dayBase with station_id := "s", date := 5, id := some "D", monthly_record_id := some "M" }, false⟩]
        { dayBase with station_id := "s", date := 5 } "N").1.map
      (fun r => r.row.monthly_record_id) = [none] ∧
    ([⟨{ dayBase with station_id := "s", date := 5, id := some "D", monthly_record_id := some "M" }, false⟩] :
      List StoredDailyRow).map (fun r => r.row.monthly_record_id) =
      [some "M"] ∧
    ([none] : List (Option String)) ≠ [some "M"] := by
  exact ⟨by decide, by decide, by decide⟩

/-- C4 (amended): the daily path does write the monthly back-reference —
`DailyBuilder` always assembles its record with back-reference `none`, and
the upsert onto an existing non-manually-edited `(station, date)` row
replaces the stored back-reference with the incoming record's value, so a
daily reprocess clears a previously set back-reference rather than
leaving it unchanged. -/
theorem C4_backref_overwritten (station : WeatherStation)
    (obs : List WeatherRecord) (date : Nat) (run_id : String)
    (store : List StoredDailyRow) (rec : DailyRecord) (newId : String) :
    (DailyBuilder.generate_record station obs date
      run_id).monthly_record_id = none ∧
    (¬ hasManualEdit store rec →
      ∀ r ∈ (Database.save_daily_record store rec newId).1,
        r.row.station_id = rec.station_id → r.row.date = rec.date →
        r.row.monthly_record_id = rec.monthly_record_id) := by
  constructor
  · rfl
  · intro h r hr hks hkd
    rw [save_daily_record_key_rows store rec newId h r hr hks hkd]

/-- Witness for C4 (amended): the builder output has no back-reference,
and after the counterexample upsert the stored row's back-reference equals
the incoming record's (`none`). -/
theorem C4_witness :
    (DailyBuilder.generate_record ⟨"w", "loc", "UTC"⟩ [obsBase] 0
      "run").monthly_record_id = none ∧
    (⟨{ dayBase with station_id := "s", date := 5, id := some "D" }, false⟩ :
      StoredDailyRow).row.monthly_record_id =
      ({ dayBase with station_id := "s", date := 5 } :
        DailyRecord).monthly_record_id := by
  refine ⟨(C4_backref_overwritten ⟨"w", "loc", "UTC"⟩ [obsBase] 0 "run"
    [] dayBase "N").1, ?_⟩
  exact (C4_backref_overwritten ⟨"w", "loc", "UTC"⟩ [obsBase] 0 "run"
    [⟨{ dayBase with station_id := "s", date := 5, id := some "D", monthly_record_id := some "M" }, false⟩]
    { dayBase with station_id := "s", date := 5 } "N").2
    (by decide) _ (by decide) (by decide) (by decide)

/-- A persistence effect emitted by one Orchestrator invocation, tagged
with the job payload type. -/
inductive RunEvent (α : Type) where
  | save_processor_thread : RunEvent α
  | dispatch : α → RunEvent α
  deriving DecidableEq

namespace Processor

/-- The dispatch trace of `process_queue` (processor.py): the FIFO
worklist is drained in order, one builder run per job. -/
def process_queue {α : Type} (jobs : List α) : List (RunEvent α) :=
  jobs.map RunEvent.dispatch

/-- The persistence-effect trace of the tail of `Processor.run`
(processor.py): when the worklist built by the fill-up phase is non-empty,
the run record is saved first and then the queue is processed; an empty
worklist only logs a warning and persists nothing. -/
def run_effects {α : Type} (jobs : List α) : List (RunEvent α) :=
  if jobs.isEmpty then []
  else RunEvent.save_processor_thread :: process_queue jobs

end Processor

/-- C8 (confirmed): the run record is persisted exactly when the worklist
is non-empty; in that case it is persisted exactly once and strictly
before every job dispatch (it heads the effect trace). -/
theorem C8_run_record_first (α : Type) [DecidableEq α] (jobs : List α) :
    (RunEvent.save_processor_thread ∈ Processor.run_effects jobs ↔
      jobs ≠ []) ∧
    (jobs ≠ [] → Processor.run_effects jobs =
      RunEvent.save_processor_thread :: jobs.map RunEvent.dispatch) ∧
    ((Processor.run_effects jobs).count
        (RunEvent.save_processor_thread : RunEvent α) =
      if jobs = [] then 0 else 1) := by
  unfold Processor.run_effects Processor.process_queue
  by_cases h : jobs = []
  · subst h
    simp
  · rw [if_neg (show ¬ jobs.isEmpty = true by
      simp [List.isEmpty_iff, h]), if_neg h]
    refine ⟨?_, fun _ => rfl, ?_⟩
    · simp [h]
    · rw [List.count_cons_self]
      have : (jobs.map (RunEvent.dispatch : α → RunEvent α)).count
          (RunEvent.save_processor_thread : RunEvent α) = 0 := by
        rw [List.count_eq_zero]
        intro hmem
        rcases List.mem_map.mp hmem with ⟨a, _, ha⟩
        exact RunEvent.noConfusion ha
      rw [this]

/-- Witness for C8 at a two-job worklist: the trace is the run-record save
followed by the dispatches, in FIFO order. -/
theorem C8_witness :
    Processor.run_effects [0, 1] =
      RunEvent.save_processor_thread ::
        ([0, 1] : List ℕ).map RunEvent.dispatch :=
  (C8_run_record_first ℕ [0, 1]).2.1 (by decide)

/-- Transcription of the circular-mean policy asserted by claim C9 (spec
section 4.2), written from the claim text for refutation: `atan2` of the
raw weighted sums, converted to degrees and normalized into `[0, 360)`,
null exactly when no valid pair exists or the total weight is zero. -/
noncomputable def windDirClaim (obs : List WeatherRecord) : Option ℝ :=
  if DailyBuilder.validWind obs = [] ∨ DailyBuilder.windWeight obs = 0 then
    none
  else
    some (DailyBuilder.fmod360 (DailyBuilder.rad2deg
      (DailyBuilder.atan2 (DailyBuilder.windY obs) (DailyBuilder.windX obs))))

theorem atan2_zero_one : DailyBuilder.atan2 0 1 = 0 := by
  unfold DailyBuilder.atan2
  have h : (⟨1, 0⟩ : ℂ) = 1 := by
    apply Complex.ext <;> simp
  rw [h, Complex.arg_one]

theorem atan2_zero_neg_one : DailyBuilder.atan2 0 (-1) = Real.pi := by
  unfold DailyBuilder.atan2
  have h : (⟨-1, 0⟩ : ℂ) = -1 := by
    apply Complex.ext <;> simp
  rw [h, Complex.arg_neg_one]

theorem rad2deg_zero : DailyBuilder.rad2deg 0 = 0 := by
  unfold DailyBuilder.rad2deg
  simp

theorem rad2deg_pi : DailyBuilder.rad2deg Real.pi = 180 := by
  unfold DailyBuilder.rad2deg
  rw [mul_comm, mul_div_assoc, div_self Real.pi_ne_zero, mul_one]

/-- On `[0, 360)` the Python float modulo is the identity. -/
theorem fmod360_eval (x : ℝ) (hx0 : 0 ≤ x) (hx : x < 360) :
    DailyBuilder.fmod360 x = x := by
  unfold DailyBuilder.fmod360
  have h : ⌊x / 360⌋ = 0 := by
    rw [Int.floor_eq_zero_iff]
    exact Set.mem_Ico.mpr ⟨div_nonneg hx0 (by norm_num),
      (div_lt_one (by norm_num)).mpr hx⟩
  rw [h]
  push_cast
  ring

/-- Scaling both `atan2` arguments by a positive factor (here: dividing by
a positive total weight) does not change the angle. -/
theorem atan2_div_pos (y x w : ℝ) (hw : 0 < w) :
    DailyBuilder.atan2 (y / w) (x / w) = DailyBuilder.atan2 y x := by
  unfold DailyBuilder.atan2
  have h : (⟨x / w, y / w⟩ : ℂ) = ((w⁻¹ : ℝ) : ℂ) * ⟨x, y⟩ := by
    apply Complex.ext <;>
      simp only [Complex.mul_re, Complex.mul_im, Complex.ofReal_re,
        Complex.ofReal_im, zero_mul, mul_zero, sub_zero, add_zero,
        zero_add] <;>
      rw [div_eq_inv_mul]
  rw [h, Complex.arg_real_mul _ (inv_pos.mpr hw)]

/-- The direction branch of `calculate_wind`, written out: `atan2` of the
weight-normalized mean vector, degrees, modulo 360, floored by the Python
`int(...)` cast. -/
theorem calculate_wind_dir_of_ne (obs : List WeatherRecord)
    (hc : ¬(DailyBuilder.validWind obs = [] ∨
        DailyBuilder.windWeight obs = 0)) :
    (DailyBuilder.calculate_wind obs).2.2 =
      some ⌊DailyBuilder.fmod360 (DailyBuilder.rad2deg (DailyBuilder.atan2
        (DailyBuilder.windY obs / ((DailyBuilder.windWeight obs : ℚ) : ℝ))
        (DailyBuilder.windX obs /
          ((DailyBuilder.windWeight obs : ℚ) : ℝ))))⌋ := by
  unfold DailyBuilder.calculate_wind
  rw [if_neg hc]

/-- C9 counterexample: one observation with wind speed −1 and direction
0°.  A valid pair exists and the total weight is −1 ≠ 0, so both sides are
non-null; but the code divides the sums by the (negative) total weight
before taking `atan2`, flipping the mean vector: the stored direction is
0°, while the claimed `atan2` of the raw sums gives 180°. -/
theorem C9_counterexample :
    ((DailyBuilder.calculate_wind
        [{ obsBase with wind_speed := some (-1), wind_direction := some 0 }]).2.2).map
      (fun z : ℤ => (z : ℝ)) = some 0 ∧
    windDirClaim
      [{ obsBase with wind_speed := some (-1), wind_direction := some 0 }] =
      some 180 ∧
    ((DailyBuilder.calculate_wind
        [{ obsBase with wind_speed := some (-1), wind_direction := some 0 }]).2.2).map
      (fun z : ℤ => (z : ℝ)) ≠
      windDirClaim
        [{ obsBase with wind_speed := some (-1), wind_direction := some 0 }] := by
  have hvalid : DailyBuilder.validWind
      [{ obsBase with wind_speed := some (-1), wind_direction := some 0 }] =
      [((-1 : ℚ), (0 : ℚ))] := by decide
  have hweight : DailyBuilder.windWeight
      [{ obsBase with wind_speed := some (-1), wind_direction := some 0 }] =
      -1 := by
    unfold DailyBuilder.windWeight
    rw [hvalid]
    simp
  have hX : DailyBuilder.windX
      [{ obsBase with wind_speed := some (-1), wind_direction := some 0 }] =
      -1 := by
    unfold DailyBuilder.windX
    rw [hvalid]
    simp [DailyBuilder.deg2rad]
  have hY : DailyBuilder.windY
      [{ obsBase with wind_speed := some (-1), wind_direction := some 0 }] =
      0 := by
    unfold DailyBuilder.windY
    rw [hvalid]
    simp [DailyBuilder.deg2rad]
  have hcond : ¬(DailyBuilder.validWind
      [{ obsBase with wind_speed := some (-1), wind_direction := some 0 }] =
        [] ∨
      DailyBuilder.windWeight
        [{ obsBase with wind_speed := some (-1), wind_direction := some 0 }] =
        0) := by
    simp [hvalid, hweight]
  have hcode : (DailyBuilder.calculate_wind
      [{ obsBase with wind_speed := some (-1), wind_direction := some 0 }]).2.2 =
      some 0 := by
    rw [calculate_wind_dir_of_ne _ hcond, hX, hY, hweight]
    push_cast
    rw [show ((0 : ℝ) / -1) = 0 by norm_num,
      show ((-1 : ℝ) / -1) = 1 by norm_num,
      atan2_zero_one, rad2deg_zero, fmod360_eval 0 le_rfl (by norm_num)]
    simp
  have hspec : windDirClaim
      [{ obsBase with wind_speed := some (-1), wind_direction := some 0 }] =
      some 180 := by
    unfold windDirClaim
    rw [if_neg hcond, hX, hY, atan2_zero_neg_one, rad2deg_pi,
      fmod360_eval 180 (by norm_num) (by norm_num)]
  refine ⟨by rw [hcode]; simp, hspec, ?_⟩
  rw [hcode, hspec]
  simp only [Option.map_some', Int.cast_zero, ne_eq, Option.some_inj]
  norm_num

/-- C9 (amended): the stored average wind direction is null exactly when
no observation has both a present wind speed and direction or the total
speed weight is zero, as claimed; and whenever the total weight is
positive — every real input, speeds being magnitudes — the stored value is
the integer truncation of the claimed circular mean: `atan2` of
`Σ(speed·sinθ)` and `Σ(speed·cosθ)`, converted to degrees and normalized
into `[0, 360)`, then floored by the Python `int(...)` cast.  (With a
negative total weight the code's normalization by the weight flips the
mean vector, see the counterexample.) -/
theorem C9_wind_direction (obs : List WeatherRecord) :
    ((DailyBuilder.calculate_wind obs).2.2 = none ↔
      DailyBuilder.validWind obs = [] ∨ DailyBuilder.windWeight obs = 0) ∧
    (0 < DailyBuilder.windWeight obs →
      (DailyBuilder.calculate_wind obs).2.2 =
        some ⌊DailyBuilder.fmod360 (DailyBuilder.rad2deg
          (DailyBuilder.atan2 (DailyBuilder.windY obs)
            (DailyBuilder.windX obs)))⌋) := by
  constructor
  · by_cases hc : DailyBuilder.validWind obs = [] ∨
        DailyBuilder.windWeight obs = 0
    · unfold DailyBuilder.calculate_wind
      rw [if_pos hc]
      exact ⟨fun _ => hc, fun _ => rfl⟩
    · unfold DailyBuilder.calculate_wind
      rw [if_neg hc]
      exact ⟨fun h => Option.noConfusion h, fun h => absurd h hc⟩
  · intro hw
    have hc : ¬(DailyBuilder.validWind obs = [] ∨
        DailyBuilder.windWeight obs = 0) := by
      rintro (h | h)
      · rw [DailyBuilder.windWeight, h] at hw
        simp at hw
      · rw [h] at hw
        exact lt_irrefl 0 hw
    have hpos : (0 : ℝ) < ((DailyBuilder.windWeight obs : ℚ) : ℝ) := by
      exact_mod_cast hw
    rw [calculate_wind_dir_of_ne obs hc, atan2_div_pos _ _ _ hpos]

/-- Witness for C9 (amended) at one observation with speed 1 and direction
0°: the total weight is positive, and the stored direction is 0. -/
theorem C9_witness :
    (DailyBuilder.calculate_wind
      [{ obsBase with wind_speed := some 1, wind_direction := some 0 }]).2.2 =
      some 0 := by
  have hvalid : DailyBuilder.validWind
      [{ obsBase with wind_speed := some 1, wind_direction := some 0 }] =
      [((1 : ℚ), (0 : ℚ))] := by decide
  have hweight : DailyBuilder.windWeight
      [{ obsBase with wind_speed := some 1, wind_direction := some 0 }] =
      1 := by
    unfold DailyBuilder.windWeight
    rw [hvalid]
    simp
  have hX : DailyBuilder.windX
      [{ obsBase with wind_speed := some 1, wind_direction := some 0 }] =
      1 := by
    unfold DailyBuilder.windX
    rw [hvalid]
    simp [DailyBuilder.deg2rad]
  have hY : DailyBuilder.windY
      [{ obsBase with wind_speed := some 1, wind_direction := some 0 }] =
      0 := by
    unfold DailyBuilder.windY
    rw [hvalid]
    simp [DailyBuilder.deg2rad]
  have h := (C9_wind_direction
    [{ obsBase with wind_speed := some 1, wind_direction := some 0 }]).2
    (by rw [hweight]; norm_num)
  rw [h, hX, hY, atan2_zero_one, rad2deg_zero,
    fmod360_eval 0 le_rfl (by norm_num)]
  simp
